import Mathlib

/-!
Verification development for the mcp-demo repository: two MCP gateway servers
(github-mcp and merge-mcp), each advertising a static tool catalog and
dispatching named tool invocations to an upstream HTTP API.

The definitions below are a shallow embedding of the two JavaScript source
files `servers/github-mcp/src/index.js` and `servers/merge-mcp/src/index.js`.
Upstream HTTP traffic is modelled by oracle records: each oracle field holds
the upstream's answer (a transport failure, or an HTTP response with a status
code, a raw body text, and a parsed payload) for the corresponding client
call.  Thrown JavaScript exceptions are modelled with `Except String`, a
thrown `Error` being represented by its `message` string.
-/

/- ===================== JavaScript semantics helpers ===================== -/

/-- JS `String.prototype.includes`: substring containment. -/
def jsIncludes (s sub : String) : Bool := decide (sub.data <:+: s.data)

/-- JS `String.prototype.toLowerCase`, for the ASCII strings the handlers use. -/
def jsToLowerCase (s : String) : String := String.mk (s.data.map Char.toLower)

/-- JS `String.prototype.trim`. -/
def jsTrim (s : String) : String :=
  String.mk (((s.data.dropWhile Char.isWhitespace).reverse.dropWhile Char.isWhitespace).reverse)

/-- JS truthiness of a possibly-absent string: `undefined` and `""` are falsy. -/
def jsTruthyStr : Option String → Bool
  | none => false
  | some s => s != ""

/-- JS `a || b` for a possibly-absent string `a` and a string default `b`. -/
def jsOrStr (a : Option String) (b : String) : String :=
  if jsTruthyStr a then a.getD "" else b

/-- JS `a || b` keeping the result possibly absent (for chained fallbacks). -/
def jsOrOpt (a b : Option String) : Option String :=
  if jsTruthyStr a then a else b

/-- JS template-literal interpolation of a possibly-absent string:
`undefined` interpolates as the text "undefined". -/
def jsTemplateStr : Option String → String
  | some s => s
  | none => "undefined"

/-- JS truthiness of a possibly-absent number: `undefined` and `0` are falsy. -/
def jsTruthyNum : Option Int → Bool
  | none => false
  | some n => n != 0

/-- JS `a || b` for possibly-absent numbers. -/
def jsOrNum (a b : Option Int) : Option Int :=
  if jsTruthyNum a then a else b

/-- JS `str.split('/')` on the underlying character list. -/
def splitSlash : List Char → List Char → List (List Char)
  | [], acc => [acc.reverse]
  | c :: rest, acc =>
    if c = '/' then acc.reverse :: splitSlash rest [] else splitSlash rest (c :: acc)

/- ===================== MCP protocol result envelope ===================== -/

/-- One content block of an MCP tool result (`type` and `text` fields). -/
structure ContentBlock where
  type : String
  text : String
deriving DecidableEq

/-- The normalized MCP invocation result envelope: content blocks plus the
`isError` flag (absent in JS success results, modelled as default `false`). -/
structure InvocationResult where
  content : List ContentBlock
  isError : Bool := false
deriving DecidableEq

/-- A result is well formed when its content is non-empty and every block is a
text block. -/
def resultWellFormed (r : InvocationResult) : Bool :=
  !r.content.isEmpty && r.content.all (fun b => b.type == "text")

/-- The text of the first content block (every handler emits exactly one). -/
def firstText (r : InvocationResult) : String :=
  (r.content.headD { type := "text", text := "" }).text

/-- The `try`/`catch` dispatch boundary shared by both servers: a handler value
is returned unchanged, a thrown error becomes a well-formed error result with
text `Error: <message>` and `isError := true`. -/
def wrapResult (r : Except String InvocationResult) : InvocationResult :=
  match r with
  | .ok res => res
  | .error message => { content := [{ type := "text", text := "Error: " ++ message }], isError := true }

/- ===================== Tool catalogs ===================== -/

/-- JSON values, used to transcribe the static `inputSchema` literals. -/
inductive Json where
  | str (s : String)
  | num (n : Int)
  | bool (b : Bool)
  | arr (elems : List Json)
  | obj (fields : List (String × Json))

/-- One advertised tool: name, description, input schema. -/
structure ToolDescriptor where
  name : String
  description : String
  inputSchema : Json

/-- The github server's static tool catalog (ListToolsRequestSchema handler). -/
def githubToolCatalog : List ToolDescriptor :=
  [ { name := "create_github_issue",
      description := "Create a new GitHub issue in the configured repository",
      inputSchema := .obj
        [ ("type", .str "object"),
          ("properties", .obj
            [ ("title", .obj [("type", .str "string"), ("description", .str "The title of the issue")]),
              ("body", .obj [("type", .str "string"), ("description", .str "The body/description of the issue")]),
              ("labels", .obj
                [ ("type", .str "array"),
                  ("items", .obj [("type", .str "string")]),
                  ("description", .str "Optional array of label names to apply") ]),
              ("assignees", .obj
                [ ("type", .str "array"),
                  ("items", .obj [("type", .str "string")]),
                  ("description", .str "Optional array of usernames to assign") ]) ]),
          ("required", .arr [.str "title"]) ] },
    { name := "list_github_issues",
      description := "List issues from the GitHub repository",
      inputSchema := .obj
        [ ("type", .str "object"),
          ("properties", .obj
            [ ("state", .obj
                [ ("type", .str "string"),
                  ("enum", .arr [.str "open", .str "closed", .str "all"]),
                  ("description", .str "Filter issues by state"),
                  ("default", .str "open") ]),
              ("labels", .obj
                [ ("type", .str "string"),
                  ("description", .str "Comma-separated list of label names to filter by") ]),
              ("limit", .obj
                [ ("type", .str "number"),
                  ("description", .str "Maximum number of issues to return"),
                  ("default", .num 10),
                  ("maximum", .num 100) ]) ]) ] },
    { name := "get_github_issue",
      description := "Get details of a specific GitHub issue",
      inputSchema := .obj
        [ ("type", .str "object"),
          ("properties", .obj
            [ ("issue_number", .obj [("type", .str "number"), ("description", .str "The issue number")]) ]),
          ("required", .arr [.str "issue_number"]) ] } ]

/-- The github server's ListTools handler: a pure function returning the static
catalog (the source handler closes over no mutable state). -/
def githubListTools : Unit → List ToolDescriptor := fun _ => githubToolCatalog

/-- Names advertised by the github catalog. -/
def githubCatalogNames : List String := githubToolCatalog.map (fun t => t.name)

/-- Names carrying a non-default branch in the github dispatch switch. -/
def githubDispatchNames : List String :=
  ["create_github_issue", "list_github_issues", "get_github_issue"]

/- ===================== GitHub server model ===================== -/

/-- A GitHub issue as consumed by the handlers (only the fields they read). -/
structure Issue where
  number : Nat
  title : String
  state : String
  html_url : String
  created_at : String := ""
  updated_at : String := ""
  body : Option String := none
  labels : List String := []
deriving DecidableEq

/-- The `issueData` request object built by the create branch. `labels` and
`assignees` are only set when present and non-empty. -/
structure IssueData where
  owner : String
  repo : String
  title : Option String
  body : String
  labels : Option (List String) := none
  assignees : Option (List String) := none
deriving DecidableEq

/-- The `params` object built by the list branch. -/
structure ListIssuesParams where
  owner : String
  repo : String
  state : String
  per_page : Nat
  labels : Option String := none
deriving DecidableEq

/-- One upstream octokit call made by the github dispatcher. -/
inductive GithubCall where
  | createIssue (d : IssueData)
  | listIssues (p : ListIssuesParams)
  | getIssue (owner repo : String) (issue_number : Option Nat)
deriving DecidableEq

/-- Oracle for the octokit upstream client: what each call would return.
A `.error m` means the call throws an error whose message is `m`. -/
structure GithubUpstream where
  createIssue : IssueData → Except String Issue
  listIssues : ListIssuesParams → Except String (List Issue)
  getIssue : String → String → Option Nat → Except String Issue

/-- Arguments of a github tool invocation (the fields the handlers read).
The source reads the `labels` argument as an array in the create branch and as
a comma-separated string in the list branch; the two readings are the fields
`labels` and `labelsFilter` here. -/
structure GithubArgs where
  title : Option String := none
  body : Option String := none
  labels : Option (List String) := none
  assignees : Option (List String) := none
  state : Option String := none
  labelsFilter : Option String := none
  limit : Option Nat := none
  issue_number : Option Nat := none
deriving DecidableEq

/-- Text of a successful create_github_issue result. -/
def createIssueText (issue : Issue) : String :=
  "Successfully created GitHub issue #" ++ toString issue.number ++ ": \"" ++ issue.title ++
    "\"\nURL: " ++ issue.html_url ++ "\nState: " ++ issue.state

/-- Result of the create_github_issue branch given the upstream answer. -/
def createIssueResult (r : Except String Issue) : Except String InvocationResult :=
  match r with
  | .error e => .error e
  | .ok issue => .ok { content := [{ type := "text", text := createIssueText issue }] }

/-- The per-issue summary built by the list branch (`issueList` mapping). -/
structure IssueSummary where
  number : Nat
  title : String
  state : String
  url : String
  created_at : String
  labels : List String
deriving DecidableEq

/-- The `issueList` mapping of the list branch. -/
def issueSummary (issue : Issue) : IssueSummary :=
  { number := issue.number, title := issue.title, state := issue.state,
    url := issue.html_url, created_at := issue.created_at, labels := issue.labels }

/-- Text of a successful list_github_issues result. -/
def listIssuesText (issues : List Issue) : String :=
  let issueList := issues.map issueSummary
  "Found " ++ toString issues.length ++ " issues:\n\n" ++
    String.intercalate "\n\n"
      (issueList.map (fun issue =>
        "#" ++ toString issue.number ++ ": " ++ issue.title ++ " (" ++ issue.state ++ ")\n  " ++ issue.url))

/-- Result of the list_github_issues branch given the upstream answer. -/
def listIssuesResult (r : Except String (List Issue)) : Except String InvocationResult :=
  match r with
  | .error e => .error e
  | .ok issues => .ok { content := [{ type := "text", text := listIssuesText issues }] }

/-- Text of a successful get_github_issue result. -/
def getIssueText (issue : Issue) : String :=
  "Issue #" ++ toString issue.number ++ ": " ++ issue.title ++ "\n\n" ++
    "State: " ++ issue.state ++ "\n" ++
    "Created: " ++ issue.created_at ++ "\n" ++
    "Updated: " ++ issue.updated_at ++ "\n" ++
    "URL: " ++ issue.html_url ++ "\n\n" ++
    "Body:\n" ++ jsOrStr issue.body "No description provided."

/-- Result of the get_github_issue branch given the upstream answer. -/
def getIssueResult (r : Except String Issue) : Except String InvocationResult :=
  match r with
  | .error e => .error e
  | .ok issue => .ok { content := [{ type := "text", text := getIssueText issue }] }

/-- The body of the github CallToolRequestSchema handler's `try` block: routes
the named tool to its branch.  Returns the branch outcome plus the list of
upstream calls issued. -/
def githubHandle (owner repo : String) (octokit : GithubUpstream) (name : String)
    (args : GithubArgs) : Except String InvocationResult × List GithubCall :=
  match name with
  | "create_github_issue" =>
    let issueData : IssueData :=
      { owner := owner, repo := repo,
        title := args.title,
        body := args.body.getD "",
        labels := match args.labels with
          | some l => if l.length > 0 then some l else none
          | none => none,
        assignees := match args.assignees with
          | some l => if l.length > 0 then some l else none
          | none => none }
    (createIssueResult (octokit.createIssue issueData), [.createIssue issueData])
  | "list_github_issues" =>
    let state := args.state.getD "open"
    let limit := args.limit.getD 10
    let params : ListIssuesParams :=
      { owner := owner, repo := repo, state := state,
        per_page := min limit 100,
        labels := if jsTruthyStr args.labelsFilter then args.labelsFilter else none }
    (listIssuesResult (octokit.listIssues params), [.listIssues params])
  | "get_github_issue" =>
    (getIssueResult (octokit.getIssue owner repo args.issue_number),
     [.getIssue owner repo args.issue_number])
  | _ => (.error ("Unknown tool: " ++ name), [])

/-- The full github CallToolRequestSchema handler: `try` body wrapped by the
`catch` that converts a thrown error into an `isError` result. -/
def githubDispatch (owner repo : String) (octokit : GithubUpstream) (name : String)
    (args : GithubArgs) : InvocationResult × List GithubCall :=
  let h := githubHandle owner repo octokit name args
  (wrapResult h.1, h.2)

/- ===================== Merge server: data model ===================== -/

/-- One entry of a contact's `email_addresses` array. -/
structure EmailAddress where
  email_address : Option String := none
deriving DecidableEq

/-- One entry of a contact's `phone_numbers` array. -/
structure PhoneNumber where
  phone_number : Option String := none
deriving DecidableEq

/-- A CRM contact as consumed by the handlers (only the fields they read). -/
structure Contact where
  id : String
  remote_id : Option String := none
  first_name : Option String := none
  last_name : Option String := none
  email_addresses : Option (List EmailAddress) := none
  phone_numbers : Option (List PhoneNumber) := none
  created_at : Option String := none
  modified_at : Option String := none
deriving DecidableEq

/-- A CRM opportunity as consumed by the handlers. -/
structure Opportunity where
  id : String
  name : Option String := none
  amount : Option Int := none
  stage : Option String := none
  remote_id : Option String := none
deriving DecidableEq

/-- A CRM account as consumed by the handlers. -/
structure Account where
  id : String
  name : Option String := none
  industry : Option String := none
deriving DecidableEq

/-- Paged `GET /crm/v1/contacts` payload. -/
structure ContactsResponse where
  results : Option (List Contact) := none
  next : Option String := none
deriving DecidableEq

/-- Paged `GET /crm/v1/opportunities` payload. -/
structure OpportunitiesResponse where
  results : Option (List Opportunity) := none
deriving DecidableEq

/-- Paged `GET /crm/v1/accounts` payload. -/
structure AccountsResponse where
  results : Option (List Account) := none
deriving DecidableEq

/-- `POST /crm/v1/contacts` payload: a possibly-null `model`. -/
structure CreateContactResult where
  model : Option Contact := none
deriving DecidableEq

/-- `POST /crm/v1/opportunities` payload: a possibly-null `model`. -/
structure CreateOpportunityResult where
  model : Option Opportunity := none
deriving DecidableEq

/-- An upstream HTTP response: status code, raw body text, parsed JSON payload. -/
structure HttpResponse (α : Type) where
  status : Nat
  bodyText : String
  json : α

namespace MergeAPIClient

/-- `fetch`'s `response.ok`: status in the 2xx range. -/
def responseOk (status : Nat) : Bool := 200 ≤ status && status ≤ 299

/-- The error message `makeRequest` throws on a non-2xx upstream status. -/
def apiErrorMessage (status : Nat) (bodyText : String) : String :=
  "Merge API error " ++ toString status ++ ": " ++ bodyText

/-- `MergeAPIClient.makeRequest`, given the transport outcome for the request:
a transport failure is rethrown unchanged; an HTTP response with a non-2xx
status becomes a thrown `Merge API error <status>: <body>`; a 2xx response
yields the parsed payload. -/
def makeRequest {α : Type} (fetched : Except String (HttpResponse α)) : Except String α :=
  match fetched with
  | .error e => .error e
  | .ok response =>
    if responseOk response.status then .ok response.json
    else .error (apiErrorMessage response.status response.bodyText)

/-- Endpoint string built by `getOpportunities`. -/
def opportunitiesEndpoint (cursor : Option String) (pageSize : Nat := 20) : String :=
  let endpoint := "/crm/v1/opportunities?page_size=" ++ toString pageSize
  match cursor with
  | some c => endpoint ++ "&cursor=" ++ c
  | none => endpoint

/-- Endpoint string built by `getAccounts`. -/
def accountsEndpoint (cursor : Option String) (pageSize : Nat := 20) : String :=
  let endpoint := "/crm/v1/accounts?page_size=" ++ toString pageSize
  match cursor with
  | some c => endpoint ++ "&cursor=" ++ c
  | none => endpoint

/-- The client-side filter predicate inside `searchCRM`: the lowercased search
term must occur in the lowercased `first_name`, `last_name`, or one of the
`email_addresses` (absent fields never match). -/
def contactMatches (searchTerm : String) (contact : Contact) : Bool :=
  (match contact.first_name with
   | some s => jsIncludes (jsToLowerCase s) searchTerm
   | none => false) ||
  (match contact.last_name with
   | some s => jsIncludes (jsToLowerCase s) searchTerm
   | none => false) ||
  (match contact.email_addresses with
   | some emails => emails.any (fun e =>
      match e.email_address with
      | some a => jsIncludes (jsToLowerCase a) searchTerm
      | none => false)
   | none => false)

/-- The post-processing step of `searchCRM`: an absent or empty query returns
the response unchanged; otherwise the results are replaced by the filtered
list (an absent results array filters to the empty list). -/
def searchCRMFilter (query : Option String) (response : ContactsResponse) : ContactsResponse :=
  if jsTruthyStr query = false then response
  else
    let searchTerm := jsToLowerCase (query.getD "")
    { response with results := some ((response.results.getD []).filter (contactMatches searchTerm)) }

/-- `MergeAPIClient.searchCRM`: one `GET /crm/v1/contacts` request followed by
the client-side filter. -/
def searchCRM (fetched : Except String (HttpResponse ContactsResponse)) (query : Option String) :
    Except String ContactsResponse :=
  (makeRequest fetched).map (searchCRMFilter query)

end MergeAPIClient

/-- Oracle for the merge upstream transport: the outcome of each request the
dispatcher can issue (`.error m` is a transport failure with message `m`). -/
structure MergeHttp where
  createContactResp : Except String (HttpResponse CreateContactResult)
  contactsResp : Except String (HttpResponse ContactsResponse)
  getContactResp : String → Except String (HttpResponse Contact)
  createOpportunityResp : Except String (HttpResponse CreateOpportunityResult)
  opportunitiesResp : Nat → Except String (HttpResponse OpportunitiesResponse)
  accountsResp : Nat → Except String (HttpResponse AccountsResponse)

/-- Arguments of a merge tool invocation (the fields the handlers read). -/
structure MergeArgs where
  query : Option String := none
  limit : Option Nat := none
  contact_id : Option String := none
  name : Option String := none
  amount : Option Int := none
  stage : Option String := none
deriving DecidableEq

/-- `contact.email_addresses?.[0]?.email_address`. -/
def firstEmail (contact : Contact) : Option String :=
  (contact.email_addresses.bind List.head?).bind (fun e => e.email_address)

/-- `contact.phone_numbers?.[0]?.phone_number`. -/
def firstPhone (contact : Contact) : Option String :=
  (contact.phone_numbers.bind List.head?).bind (fun p => p.phone_number)

/-- Text of a successful create_crm_contact result. -/
def createContactText (result : CreateContactResult) : String :=
  "Successfully created CRM contact via Merge!\n" ++
    "ID: " ++ jsOrStr (result.model.map (fun m => m.id)) "N/A" ++ "\n" ++
    "Name: " ++ jsTemplateStr (result.model.bind (fun m => m.first_name)) ++ " " ++
      jsTemplateStr (result.model.bind (fun m => m.last_name)) ++ "\n" ++
    "Email: " ++ jsOrStr (result.model.bind firstEmail) "N/A" ++ "\n" ++
    "Status: " ++ (match result.model with | some _ => "Created" | none => "Pending sync") ++ "\n" ++
    "Remote ID: " ++ jsOrStr (result.model.bind (fun m => m.remote_id)) "Will be assigned"

/-- Result of the create_crm_contact branch given the upstream answer. -/
def createContactResult (r : Except String CreateContactResult) : Except String InvocationResult :=
  match r with
  | .error e => .error e
  | .ok result => .ok { content := [{ type := "text", text := createContactText result }] }

/-- One line of the search_crm_contacts listing. -/
def contactLine (contact : Contact) : String :=
  let email := jsOrStr (firstEmail contact) "No email"
  let name := jsTrim (jsOrStr contact.first_name "" ++ " " ++ jsOrStr contact.last_name "")
  name ++ " (" ++ email ++ ") - ID: " ++ contact.id

/-- Result of the search_crm_contacts branch after `searchCRM` returns. -/
def searchContactsResult (r : Except String ContactsResponse) (query : Option String)
    (limit : Nat) : Except String InvocationResult :=
  match r with
  | .error e => .error e
  | .ok result =>
    let contacts := (result.results.getD []).take limit
    let emptyText :=
      "No contacts found" ++
        (if jsTruthyStr query then " for \"" ++ query.getD "" ++ "\"" else "")
    let foundText :=
      "Found " ++ toString contacts.length ++ " contact(s):\n\n" ++
        String.intercalate "\n" (contacts.map contactLine)
    if contacts.isEmpty then
      .ok { content := [{ type := "text", text := emptyText }] }
    else
      .ok { content := [{ type := "text", text := foundText }] }

/-- Text of a successful get_crm_contact result. -/
def getContactText (contact : Contact) : String :=
  let email := jsOrStr (firstEmail contact) "No email"
  let phone := jsOrStr (firstPhone contact) "No phone"
  let name := jsTrim (jsOrStr contact.first_name "" ++ " " ++ jsOrStr contact.last_name "")
  "Contact Details:\n" ++
    "Name: " ++ name ++ "\n" ++
    "Email: " ++ email ++ "\n" ++
    "Phone: " ++ phone ++ "\n" ++
    "ID: " ++ contact.id ++ "\n" ++
    "Remote ID: " ++ jsOrStr contact.remote_id "N/A" ++ "\n" ++
    "Created: " ++ jsOrStr contact.created_at "Unknown" ++ "\n" ++
    "Modified: " ++ jsOrStr contact.modified_at "Unknown"

/-- Result of the get_crm_contact branch given the upstream answer. -/
def getContactResult (r : Except String Contact) : Except String InvocationResult :=
  match r with
  | .error e => .error e
  | .ok contact => .ok { content := [{ type := "text", text := getContactText contact }] }

/-- Text of a successful create_crm_opportunity result. -/
def createOpportunityText (result : CreateOpportunityResult) (args : MergeArgs) : String :=
  "Successfully created CRM opportunity via Merge!\n" ++
    "ID: " ++ jsOrStr (result.model.map (fun m => m.id)) "N/A" ++ "\n" ++
    "Name: " ++ jsTemplateStr (jsOrOpt (result.model.bind (fun m => m.name)) args.name) ++ "\n" ++
    "Amount: " ++
      toString ((jsOrNum (jsOrNum (result.model.bind (fun m => m.amount)) args.amount) (some 0)).getD 0) ++ "\n" ++
    "Stage: " ++ jsOrStr (jsOrOpt (result.model.bind (fun m => m.stage)) args.stage) "Not set" ++ "\n" ++
    "Status: " ++ (match result.model with | some _ => "Created" | none => "Pending sync") ++ "\n" ++
    "Remote ID: " ++ jsOrStr (result.model.bind (fun m => m.remote_id)) "Will be assigned"

/-- Result of the create_crm_opportunity branch given the upstream answer. -/
def createOpportunityResult (r : Except String CreateOpportunityResult) (args : MergeArgs) :
    Except String InvocationResult :=
  match r with
  | .error e => .error e
  | .ok result => .ok { content := [{ type := "text", text := createOpportunityText result args }] }

/-- One line of the list_crm_opportunities listing. -/
def oppLine (opp : Opportunity) : String :=
  let amount := if jsTruthyNum opp.amount then toString (opp.amount.getD 0) else "No amount"
  jsOrStr opp.name "Unnamed" ++ " - " ++ amount ++ " (" ++ jsOrStr opp.stage "No stage" ++
    ") - ID: " ++ opp.id

/-- Result of the list_crm_opportunities branch given the upstream answer. -/
def listOpportunitiesResult (r : Except String OpportunitiesResponse) :
    Except String InvocationResult :=
  match r with
  | .error e => .error e
  | .ok result =>
    let opportunities := result.results.getD []
    let foundText :=
      "Found " ++ toString opportunities.length ++ " opportunit" ++
        (if opportunities.length == 1 then "y" else "ies") ++ ":\n\n" ++
        String.intercalate "\n" (opportunities.map oppLine)
    if opportunities.isEmpty then
      .ok { content := [{ type := "text", text := "No opportunities found in your CRM" }] }
    else
      .ok { content := [{ type := "text", text := foundText }] }

/-- One line of the get_crm_accounts listing. -/
def accountLine (account : Account) : String :=
  jsOrStr account.name "Unnamed Company" ++ " - ID: " ++ account.id ++
    (if jsTruthyStr account.industry then " (" ++ account.industry.getD "" ++ ")" else "")

/-- Result of the get_crm_accounts branch given the upstream answer. -/
def getAccountsResult (r : Except String AccountsResponse) : Except String InvocationResult :=
  match r with
  | .error e => .error e
  | .ok result =>
    let accounts := result.results.getD []
    let foundText :=
      "Found " ++ toString accounts.length ++ " account(s):\n\n" ++
        String.intercalate "\n" (accounts.map accountLine)
    if accounts.isEmpty then
      .ok { content := [{ type := "text", text := "No accounts/companies found in your CRM" }] }
    else
      .ok { content := [{ type := "text", text := foundText }] }

/-- The body of the merge CallToolRequestSchema handler's `try` block: routes
the named tool to its branch.  Returns the branch outcome plus the endpoints
requested upstream. -/
def mergeHandle (http : MergeHttp) (name : String) (args : MergeArgs) :
    Except String InvocationResult × List String :=
  match name with
  | "create_crm_contact" =>
    (createContactResult (MergeAPIClient.makeRequest http.createContactResp),
     ["/crm/v1/contacts"])
  | "search_crm_contacts" =>
    let query := args.query
    let limit := args.limit.getD 10
    (searchContactsResult (MergeAPIClient.searchCRM http.contactsResp query) query limit,
     ["/crm/v1/contacts"])
  | "get_crm_contact" =>
    let contactId := jsTemplateStr args.contact_id
    (getContactResult (MergeAPIClient.makeRequest (http.getContactResp contactId)),
     ["/crm/v1/contacts/" ++ contactId])
  | "create_crm_opportunity" =>
    (createOpportunityResult (MergeAPIClient.makeRequest http.createOpportunityResp) args,
     ["/crm/v1/opportunities"])
  | "list_crm_opportunities" =>
    let limit := args.limit.getD 10
    (listOpportunitiesResult (MergeAPIClient.makeRequest (http.opportunitiesResp limit)),
     [MergeAPIClient.opportunitiesEndpoint none limit])
  | "get_crm_accounts" =>
    let limit := args.limit.getD 10
    (getAccountsResult (MergeAPIClient.makeRequest (http.accountsResp limit)),
     [MergeAPIClient.accountsEndpoint none limit])
  | _ => (.error ("Unknown tool: " ++ name), [])

/-- The full merge CallToolRequestSchema handler: `try` body wrapped by the
`catch` that converts a thrown error into an `isError` result. -/
def mergeDispatch (http : MergeHttp) (name : String) (args : MergeArgs) :
    InvocationResult × List String :=
  let h := mergeHandle http name args
  (wrapResult h.1, h.2)

/- ===================== Merge server: catalog ===================== -/

/-- The merge server's static tool catalog (ListToolsRequestSchema handler). -/
def mergeToolCatalog : List ToolDescriptor :=
  [ { name := "create_crm_contact",
      description := "Create a new contact in your CRM via Merge unified API",
      inputSchema := .obj
        [ ("type", .str "object"),
          ("properties", .obj
            [ ("first_name", .obj [("type", .str "string"), ("description", .str "First name")]),
              ("last_name", .obj [("type", .str "string"), ("description", .str "Last name")]),
              ("email_addresses", .obj
                [ ("type", .str "array"),
                  ("items", .obj
                    [ ("type", .str "object"),
                      ("properties", .obj
                        [ ("email_address", .obj [("type", .str "string")]),
                          ("email_address_type", .obj
                            [ ("type", .str "string"),
                              ("enum", .arr [.str "PERSONAL", .str "WORK", .str "OTHER"]),
                              ("default", .str "WORK") ]) ]) ]),
                  ("description", .str "Email addresses") ]),
              ("phone_numbers", .obj
                [ ("type", .str "array"),
                  ("items", .obj
                    [ ("type", .str "object"),
                      ("properties", .obj
                        [ ("phone_number", .obj [("type", .str "string")]),
                          ("phone_number_type", .obj
                            [ ("type", .str "string"),
                              ("enum", .arr [.str "HOME", .str "WORK", .str "MOBILE", .str "OTHER"]),
                              ("default", .str "WORK") ]) ]) ]),
                  ("description", .str "Phone numbers") ]),
              ("account", .obj
                [ ("type", .str "string"),
                  ("description", .str "Company/Account ID to associate with") ]) ]),
          ("required", .arr [.str "first_name", .str "last_name"]) ] },
    { name := "search_crm_contacts",
      description := "Search for contacts in your CRM via Merge",
      inputSchema := .obj
        [ ("type", .str "object"),
          ("properties", .obj
            [ ("query", .obj
                [ ("type", .str "string"),
                  ("description", .str "Search term (name or email)") ]),
              ("limit", .obj
                [ ("type", .str "number"),
                  ("description", .str "Maximum number of results"),
                  ("default", .num 10),
                  ("maximum", .num 100) ]) ]) ] },
    { name := "get_crm_contact",
      description := "Get detailed information about a specific CRM contact",
      inputSchema := .obj
        [ ("type", .str "object"),
          ("properties", .obj
            [ ("contact_id", .obj
                [ ("type", .str "string"),
                  ("description", .str "The Merge contact ID") ]) ]),
          ("required", .arr [.str "contact_id"]) ] },
    { name := "create_crm_opportunity",
      description := "Create a new sales opportunity/deal in your CRM via Merge",
      inputSchema := .obj
        [ ("type", .str "object"),
          ("properties", .obj
            [ ("name", .obj [("type", .str "string"), ("description", .str "Opportunity name")]),
              ("description", .obj [("type", .str "string"), ("description", .str "Opportunity description")]),
              ("amount", .obj [("type", .str "number"), ("description", .str "Deal amount/value")]),
              ("contact", .obj
                [ ("type", .str "string"),
                  ("description", .str "Contact ID to associate with this opportunity") ]),
              ("account", .obj [("type", .str "string"), ("description", .str "Account/Company ID")]),
              ("stage", .obj [("type", .str "string"), ("description", .str "Sales stage/status")]) ]),
          ("required", .arr [.str "name"]) ] },
    { name := "list_crm_opportunities",
      description := "List recent opportunities/deals from your CRM",
      inputSchema := .obj
        [ ("type", .str "object"),
          ("properties", .obj
            [ ("limit", .obj
                [ ("type", .str "number"),
                  ("description", .str "Maximum number of results"),
                  ("default", .num 10),
                  ("maximum", .num 100) ]) ]) ] },
    { name := "get_crm_accounts",
      description := "List companies/accounts from your CRM via Merge",
      inputSchema := .obj
        [ ("type", .str "object"),
          ("properties", .obj
            [ ("limit", .obj
                [ ("type", .str "number"),
                  ("description", .str "Maximum number of results"),
                  ("default", .num 10),
                  ("maximum", .num 100) ]) ]) ] } ]

/-- The merge server's ListTools handler: a pure function returning the static
catalog (the source handler closes over no mutable state). -/
def mergeListTools : Unit → List ToolDescriptor := fun _ => mergeToolCatalog

/-- Names advertised by the merge catalog. -/
def mergeCatalogNames : List String := mergeToolCatalog.map (fun t => t.name)

/-- Names carrying a non-default branch in the merge dispatch switch. -/
def mergeDispatchNames : List String :=
  ["create_crm_contact", "search_crm_contacts", "get_crm_contact",
   "create_crm_opportunity", "list_crm_opportunities", "get_crm_accounts"]

/- ===================== Startup environment checks ===================== -/

/-- Outcome of the module-top startup validation, which in the source runs
before the MCP server object is created and before `start()` binds the stdio
invocation channel or the health HTTP port: either the process has exited
with the given status code (nothing was bound), or the checks passed and the
process proceeds with the parsed configuration. -/
inductive StartupOutcome (Config : Type) where
  | exited (code : Nat)
  | proceed (config : Config)
deriving DecidableEq

/-- Environment variables read by the github server at startup. -/
structure GithubEnv where
  GITHUB_TOKEN : Option String := none
  GITHUB_REPO : Option String := none
deriving DecidableEq

/-- Configuration the github server runs with after its checks pass. -/
structure GithubConfig where
  token : String
  owner : String
  repo : String
deriving DecidableEq

/-- The github server's startup checks: missing `GITHUB_TOKEN` or
`GITHUB_REPO` exits with status 1, as does a repo string that does not split
into a truthy owner and repo around `/`. -/
def githubStartupChecks (env : GithubEnv) : StartupOutcome GithubConfig :=
  if jsTruthyStr env.GITHUB_TOKEN = false then .exited 1
  else if jsTruthyStr env.GITHUB_REPO = false then .exited 1
  else
    let parts := splitSlash (env.GITHUB_REPO.getD "").data []
    let owner := (parts[0]?).map String.mk
    let repo := (parts[1]?).map String.mk
    if jsTruthyStr owner = false || jsTruthyStr repo = false then .exited 1
    else .proceed { token := env.GITHUB_TOKEN.getD "", owner := owner.getD "", repo := repo.getD "" }

/-- Environment variables read by the merge server at startup. -/
structure MergeEnv where
  MERGE_API_KEY : Option String := none
  MERGE_ACCOUNT_TOKEN : Option String := none
deriving DecidableEq

/-- Configuration the merge server runs with after its checks pass. -/
structure MergeConfig where
  apiKey : String
  accountToken : String
deriving DecidableEq

/-- The merge server's startup checks: a missing `MERGE_API_KEY` or
`MERGE_ACCOUNT_TOKEN` exits with status 1. -/
def mergeStartupChecks (env : MergeEnv) : StartupOutcome MergeConfig :=
  if jsTruthyStr env.MERGE_API_KEY = false then .exited 1
  else if jsTruthyStr env.MERGE_ACCOUNT_TOKEN = false then .exited 1
  else .proceed { apiKey := env.MERGE_API_KEY.getD "", accountToken := env.MERGE_ACCOUNT_TOKEN.getD "" }

/- ===================== Sample values (used by witnesses) ===================== -/

/-- A minimal contact. -/
def sampleContact : Contact := { id := "c0" }

/-- The Alice contact of the search scenario. -/
def aliceContact : Contact :=
  { id := "c1", first_name := some "Alice", last_name := some "Anderson",
    email_addresses := some [{ email_address := some "alice@example.com" }] }

/-- The Bob contact of the search scenario. -/
def bobContact : Contact :=
  { id := "c2", first_name := some "Bob", last_name := some "Brown",
    email_addresses := some [{ email_address := some "bob@example.com" }] }

/-- An upstream contacts page holding Alice and Bob. -/
def aliceBobPage : ContactsResponse := { results := some [aliceContact, bobContact] }

/-- A merge upstream oracle whose contacts page holds Alice and Bob and whose
other endpoints return empty 2xx pages. -/
def aliceBobHttp : MergeHttp :=
  { createContactResp := .ok { status := 200, bodyText := "", json := {} },
    contactsResp := .ok { status := 200, bodyText := "", json := aliceBobPage },
    getContactResp := fun _ => .ok { status := 200, bodyText := "", json := sampleContact },
    createOpportunityResp := .ok { status := 200, bodyText := "", json := {} },
    opportunitiesResp := fun _ => .ok { status := 200, bodyText := "", json := { results := some [] } },
    accountsResp := fun _ => .ok { status := 200, bodyText := "", json := { results := some [] } } }

/-- The echoed issue of the create-issue scenario. -/
def bugXIssue : Issue := { number := 42, title := "Bug X", state := "open", html_url := "https://x/42" }

/-- A github upstream oracle that echoes the create-issue scenario issue. -/
def echoBugXOctokit : GithubUpstream :=
  { createIssue := fun _ => .ok bugXIssue,
    listIssues := fun _ => .ok [],
    getIssue := fun _ _ _ => .ok bugXIssue }

/-- A merge upstream oracle answering every request with the given status and
body and the given (arbitrary) payloads; used to study non-2xx statuses. -/
def mergeBadHttp (status : Nat) (bodyText : String) (jc : CreateContactResult)
    (jp : ContactsResponse) (jk : Contact) (jo : CreateOpportunityResult)
    (jl : OpportunitiesResponse) (ja : AccountsResponse) : MergeHttp :=
  { createContactResp := .ok { status := status, bodyText := bodyText, json := jc },
    contactsResp := .ok { status := status, bodyText := bodyText, json := jp },
    getContactResp := fun _ => .ok { status := status, bodyText := bodyText, json := jk },
    createOpportunityResp := .ok { status := status, bodyText := bodyText, json := jo },
    opportunitiesResp := fun _ => .ok { status := status, bodyText := bodyText, json := jl },
    accountsResp := fun _ => .ok { status := status, bodyText := bodyText, json := ja } }

/-- Modelled from the spec: the github server's upstream client is the external
octokit library (not part of this repository); per the spec's error taxonomy
its per-call failures surface as thrown errors whose message carries the
upstream diagnostic.  This oracle fails every call with the given message. -/
def githubFailingUpstream (msg : String) : GithubUpstream :=
  { createIssue := fun _ => .error msg,
    listIssues := fun _ => .error msg,
    getIssue := fun _ _ _ => .error msg }

/-- A contact named Alice with the given id and no other fields. -/
def aliceNamed (idStr : String) : Contact := { id := idStr, first_name := some "Alice" }

/-- An upstream contacts page holding eleven contacts that all match the
query "alice". -/
def elevenAlicesPage : ContactsResponse :=
  { results := some
      [aliceNamed "p1", aliceNamed "p2", aliceNamed "p3", aliceNamed "p4", aliceNamed "p5",
       aliceNamed "p6", aliceNamed "p7", aliceNamed "p8", aliceNamed "p9", aliceNamed "p10",
       aliceNamed "missing11"] }

/-- A merge upstream oracle whose contacts page holds the eleven Alices. -/
def elevenAlicesHttp : MergeHttp :=
  { createContactResp := .ok { status := 200, bodyText := "", json := {} },
    contactsResp := .ok { status := 200, bodyText := "", json := elevenAlicesPage },
    getContactResp := fun _ => .ok { status := 200, bodyText := "", json := sampleContact },
    createOpportunityResp := .ok { status := 200, bodyText := "", json := {} },
    opportunitiesResp := fun _ => .ok { status := 200, bodyText := "", json := { results := some [] } },
    accountsResp := fun _ => .ok { status := 200, bodyText := "", json := { results := some [] } } }

/-- A merge upstream oracle whose opportunities page is a 2xx empty page. -/
def emptyOppsHttp : MergeHttp :=
  { createContactResp := .ok { status := 200, bodyText := "", json := {} },
    contactsResp := .ok { status := 200, bodyText := "", json := {} },
    getContactResp := fun _ => .ok { status := 200, bodyText := "", json := sampleContact },
    createOpportunityResp := .ok { status := 200, bodyText := "", json := {} },
    opportunitiesResp := fun _ => .ok { status := 200, bodyText := "", json := { results := some [] } },
    accountsResp := fun _ => .ok { status := 200, bodyText := "", json := { results := some [] } } }

/- ===================== General lemmas ===================== -/

theorem data_nil : ("" : String).data = [] := rfl

theorem isInfix_self_append {α : Type} (l t : List α) : l <:+: l ++ t :=
  ⟨[], t, by simp⟩

theorem isInfix_appendLeft {α : Type} (pre : List α) {l whole : List α}
    (h : l <:+: whole) : l <:+: pre ++ whole := by
  obtain ⟨s, t, hst⟩ := h
  exact ⟨pre ++ s, t, by rw [← hst]; simp [List.append_assoc]⟩

/-- To show `sub` occurs in `t`, exhibit `t` as `pre ++ (sub ++ post)`. -/
theorem jsIncludes_intro (pre post : String) {sub t : String}
    (h : t.data = pre.data ++ (sub.data ++ post.data)) : jsIncludes t sub = true := by
  unfold jsIncludes
  simp only [decide_eq_true_eq]
  rw [h]
  exact isInfix_appendLeft _ (isInfix_self_append _ _)

/-- Occurrence survives prepending. -/
theorem jsIncludes_prependStr (a : String) {m sub : String} (h : jsIncludes m sub = true) :
    jsIncludes (a ++ m) sub = true := by
  unfold jsIncludes at h ⊢
  simp only [decide_eq_true_eq] at h ⊢
  rw [String.data_append]
  exact isInfix_appendLeft _ h

/-- The error message a non-2xx merge response produces, wrapped by the catch
boundary, mentions the status code. -/
theorem wrapError_includes_status (status : Nat) (bodyText : String) :
    jsIncludes ("Error: " ++ MergeAPIClient.apiErrorMessage status bodyText) (toString status) = true := by
  apply jsIncludes_intro ("Error: " ++ "Merge API error ") (": " ++ bodyText)
  simp [MergeAPIClient.apiErrorMessage, String.data_append, List.append_assoc]

/- ===================== Well-formedness of every branch ===================== -/

theorem createIssueResult_ok_wf {r : Except String Issue} {res : InvocationResult}
    (h : createIssueResult r = .ok res) : resultWellFormed res = true := by
  cases r with
  | error e => simp [createIssueResult] at h
  | ok issue => simp [createIssueResult] at h; subst h; rfl

theorem listIssuesResult_ok_wf {r : Except String (List Issue)} {res : InvocationResult}
    (h : listIssuesResult r = .ok res) : resultWellFormed res = true := by
  cases r with
  | error e => simp [listIssuesResult] at h
  | ok issues => simp [listIssuesResult] at h; subst h; rfl

theorem getIssueResult_ok_wf {r : Except String Issue} {res : InvocationResult}
    (h : getIssueResult r = .ok res) : resultWellFormed res = true := by
  cases r with
  | error e => simp [getIssueResult] at h
  | ok issue => simp [getIssueResult] at h; subst h; rfl

theorem createContactResult_ok_wf {r : Except String CreateContactResult} {res : InvocationResult}
    (h : createContactResult r = .ok res) : resultWellFormed res = true := by
  cases r with
  | error e => simp [createContactResult] at h
  | ok result => simp [createContactResult] at h; subst h; rfl

theorem searchContactsResult_ok_wf {r : Except String ContactsResponse} {query : Option String}
    {limit : Nat} {res : InvocationResult}
    (h : searchContactsResult r query limit = .ok res) : resultWellFormed res = true := by
  cases r with
  | error e => simp [searchContactsResult] at h
  | ok result =>
    simp only [searchContactsResult] at h
    split at h <;> (simp at h; subst h; rfl)

theorem getContactResult_ok_wf {r : Except String Contact} {res : InvocationResult}
    (h : getContactResult r = .ok res) : resultWellFormed res = true := by
  cases r with
  | error e => simp [getContactResult] at h
  | ok contact => simp [getContactResult] at h; subst h; rfl

theorem createOpportunityResult_ok_wf {r : Except String CreateOpportunityResult}
    {args : MergeArgs} {res : InvocationResult}
    (h : createOpportunityResult r args = .ok res) : resultWellFormed res = true := by
  cases r with
  | error e => simp [createOpportunityResult] at h
  | ok result => simp [createOpportunityResult] at h; subst h; rfl

theorem listOpportunitiesResult_ok_wf {r : Except String OpportunitiesResponse}
    {res : InvocationResult}
    (h : listOpportunitiesResult r = .ok res) : resultWellFormed res = true := by
  cases r with
  | error e => simp [listOpportunitiesResult] at h
  | ok result =>
    simp only [listOpportunitiesResult] at h
    split at h <;> (simp at h; subst h; rfl)

theorem getAccountsResult_ok_wf {r : Except String AccountsResponse} {res : InvocationResult}
    (h : getAccountsResult r = .ok res) : resultWellFormed res = true := by
  cases r with
  | error e => simp [getAccountsResult] at h
  | ok result =>
    simp only [getAccountsResult] at h
    split at h <;> (simp at h; subst h; rfl)

/-- Every successful outcome of the github handler body is a well-formed
single-text-block result. -/
theorem githubHandle_ok_wf {owner repo : String} {octokit : GithubUpstream}
    {name : String} {args : GithubArgs} {res : InvocationResult}
    (h : (githubHandle owner repo octokit name args).1 = .ok res) :
    resultWellFormed res = true := by
  unfold githubHandle at h
  split at h
  · exact createIssueResult_ok_wf h
  · exact listIssuesResult_ok_wf h
  · exact getIssueResult_ok_wf h
  · simp at h

/-- Every successful outcome of the merge handler body is a well-formed
single-text-block result. -/
theorem mergeHandle_ok_wf {http : MergeHttp} {name : String} {args : MergeArgs}
    {res : InvocationResult}
    (h : (mergeHandle http name args).1 = .ok res) :
    resultWellFormed res = true := by
  unfold mergeHandle at h
  split at h
  · exact createContactResult_ok_wf h
  · exact searchContactsResult_ok_wf h
  · exact getContactResult_ok_wf h
  · exact createOpportunityResult_ok_wf h
  · exact listOpportunitiesResult_ok_wf h
  · exact getAccountsResult_ok_wf h
  · simp at h

/-- The catch boundary yields a well-formed result whenever every successful
handler outcome is well formed. -/
theorem wrapResult_wf (X : Except String InvocationResult)
    (h : ∀ res, X = .ok res → resultWellFormed res = true) :
    resultWellFormed (wrapResult X) = true := by
  cases X with
  | ok res => exact h res rfl
  | error e => rfl

/-- Outside the dispatch switch every tool name reaches the default branch. -/
theorem mergeHandle_unknown (http : MergeHttp) (name : String) (args : MergeArgs)
    (h : name ∉ mergeDispatchNames) :
    mergeHandle http name args = (.error ("Unknown tool: " ++ name), []) := by
  simp only [mergeDispatchNames, List.mem_cons, List.mem_singleton] at h
  push_neg at h
  unfold mergeHandle
  split <;> simp_all

/-- Outside the dispatch switch every tool name reaches the default branch. -/
theorem githubHandle_unknown (owner repo : String) (octokit : GithubUpstream)
    (name : String) (args : GithubArgs) (h : name ∉ githubDispatchNames) :
    githubHandle owner repo octokit name args = (.error ("Unknown tool: " ++ name), []) := by
  simp only [githubDispatchNames, List.mem_cons, List.mem_singleton] at h
  push_neg at h
  unfold githubHandle
  split <;> simp_all

/- ===================== Claims ===================== -/

/-- C1: For every invocation request of either server — any tool name, any
arguments, any upstream behaviour — the call_tool handler returns a
well-formed `InvocationResult` whose content is a non-empty sequence of text
blocks, and `isError` is true whenever the handler body could not complete
(modelled as an `Except.error`).  `mergeDispatch` and `githubDispatch` are
total functions into `InvocationResult`, so no handler failure escapes the
dispatch boundary as an exception. -/
theorem claim_c1_dispatch_wellformed (http : MergeHttp) (octokit : GithubUpstream)
    (owner repo name : String) (margs : MergeArgs) (gargs : GithubArgs) :
    resultWellFormed (mergeDispatch http name margs).1 = true ∧
    resultWellFormed (githubDispatch owner repo octokit name gargs).1 = true ∧
    (∀ e, (mergeHandle http name margs).1 = .error e →
      (mergeDispatch http name margs).1.isError = true) ∧
    (∀ e, (githubHandle owner repo octokit name gargs).1 = .error e →
      (githubDispatch owner repo octokit name gargs).1.isError = true) := by
  refine ⟨?_, ?_, ?_, ?_⟩
  · exact wrapResult_wf _ (fun res h => mergeHandle_ok_wf h)
  · exact wrapResult_wf _ (fun res h => githubHandle_ok_wf h)
  · intro e h
    simp [mergeDispatch, h, wrapResult]
  · intro e h
    simp [githubDispatch, h, wrapResult]

/-- C1 witness: the property at a concrete invocation (an unknown tool against
the sample oracles, which exercises the error side of the boundary). -/
theorem claim_c1_dispatch_wellformed_witness :
    resultWellFormed (mergeDispatch aliceBobHttp "nope" {}).1 = true ∧
    resultWellFormed (githubDispatch "o" "r" echoBugXOctokit "nope" {}).1 = true ∧
    (∀ e, (mergeHandle aliceBobHttp "nope" {}).1 = .error e →
      (mergeDispatch aliceBobHttp "nope" {}).1.isError = true) ∧
    (∀ e, (githubHandle "o" "r" echoBugXOctokit "nope" {}).1 = .error e →
      (githubDispatch "o" "r" echoBugXOctokit "nope" {}).1.isError = true) :=
  claim_c1_dispatch_wellformed aliceBobHttp echoBugXOctokit "o" "r" "nope" {} {}

/-- C2: invoking a server with a tool name outside that server's own catalog
yields an error result (`isError = true`) whose message text contains the
invalid name.  The two servers' names are hypothesized independently, so the
theorem also covers a name that belongs only to the sibling server's
catalog. -/
theorem claim_c2_unknown_tool (mname gname : String)
    (hm : mname ∉ mergeCatalogNames) (hg : gname ∉ githubCatalogNames)
    (http : MergeHttp) (margs : MergeArgs)
    (octokit : GithubUpstream) (owner repo : String) (gargs : GithubArgs) :
    ((mergeDispatch http mname margs).1.isError = true ∧
      jsIncludes (firstText (mergeDispatch http mname margs).1) mname = true) ∧
    ((githubDispatch owner repo octokit gname gargs).1.isError = true ∧
      jsIncludes (firstText (githubDispatch owner repo octokit gname gargs).1) gname = true) := by
  have hdm : mname ∉ mergeDispatchNames := by
    simpa [mergeDispatchNames, mergeCatalogNames, mergeToolCatalog] using hm
  have hdg : gname ∉ githubDispatchNames := by
    simpa [githubDispatchNames, githubCatalogNames, githubToolCatalog] using hg
  have hmerge := mergeHandle_unknown http mname margs hdm
  have hgit := githubHandle_unknown owner repo octokit gname gargs hdg
  have hinc : ∀ n : String, jsIncludes ("Error: " ++ ("Unknown tool: " ++ n)) n = true := by
    intro n
    apply jsIncludes_intro ("Error: " ++ "Unknown tool: ") ""
    simp [String.data_append, List.append_assoc, data_nil]
  refine ⟨⟨?_, ?_⟩, ⟨?_, ?_⟩⟩
  · simp [mergeDispatch, hmerge, wrapResult]
  · simpa [mergeDispatch, hmerge, wrapResult, firstText] using hinc mname
  · simp [githubDispatch, hgit, wrapResult]
  · simpa [githubDispatch, hgit, wrapResult, firstText] using hinc gname

/-- C2 witness: each server invoked with a name from the sibling server's
catalog, absent from its own. -/
theorem claim_c2_unknown_tool_witness :
    "create_github_issue" ∉ mergeCatalogNames ∧ "search_crm_contacts" ∉ githubCatalogNames ∧
    (((mergeDispatch aliceBobHttp "create_github_issue" {}).1.isError = true ∧
      jsIncludes (firstText (mergeDispatch aliceBobHttp "create_github_issue" {}).1) "create_github_issue" = true) ∧
     ((githubDispatch "o" "r" echoBugXOctokit "search_crm_contacts" {}).1.isError = true ∧
      jsIncludes (firstText (githubDispatch "o" "r" echoBugXOctokit "search_crm_contacts" {}).1) "search_crm_contacts" = true)) :=
  ⟨by decide, by decide,
   claim_c2_unknown_tool "create_github_issue" "search_crm_contacts" (by decide) (by decide)
     aliceBobHttp {} echoBugXOctokit "o" "r" {}⟩

/-- C9: list_tools is idempotent for both servers: the handler is a pure
function of no state, so two successive calls return the identical descriptor
list, namely the static catalog, with no mutation in between. -/
theorem claim_c9_list_tools_idempotent :
    githubListTools () = githubListTools () ∧ githubListTools () = githubToolCatalog ∧
    mergeListTools () = mergeListTools () ∧ mergeListTools () = mergeToolCatalog :=
  ⟨rfl, rfl, rfl, rfl⟩

/-- C4: for each server, the set of names returned by list_tools equals the
set of names with a non-default branch in the dispatch switch, with no
duplicates; every other name falls to the default (unknown tool) branch. -/
theorem claim_c4_catalog_matches_dispatch :
    githubCatalogNames = githubDispatchNames ∧ githubDispatchNames.Nodup ∧
    mergeCatalogNames = mergeDispatchNames ∧ mergeDispatchNames.Nodup ∧
    (∀ (owner repo : String) (octokit : GithubUpstream) (name : String) (gargs : GithubArgs),
      name ∉ githubDispatchNames →
      (githubHandle owner repo octokit name gargs).1 = .error ("Unknown tool: " ++ name)) ∧
    (∀ (http : MergeHttp) (name : String) (margs : MergeArgs),
      name ∉ mergeDispatchNames →
      (mergeHandle http name margs).1 = .error ("Unknown tool: " ++ name)) := by
  refine ⟨by decide, by decide, by decide, by decide, ?_, ?_⟩
  · intro owner repo octokit name gargs h
    rw [githubHandle_unknown owner repo octokit name gargs h]
  · intro http name margs h
    rw [mergeHandle_unknown http name margs h]

/-- C4 witness: the property instantiated; the quantified conjuncts applied at
the concrete name "bogus". -/
theorem claim_c4_catalog_matches_dispatch_witness :
    (githubCatalogNames = githubDispatchNames ∧ mergeCatalogNames = mergeDispatchNames) ∧
    "bogus" ∉ githubDispatchNames ∧ "bogus" ∉ mergeDispatchNames ∧
    (githubHandle "o" "r" echoBugXOctokit "bogus" {}).1 = .error ("Unknown tool: " ++ "bogus") ∧
    (mergeHandle aliceBobHttp "bogus" {}).1 = .error ("Unknown tool: " ++ "bogus") :=
  ⟨⟨claim_c4_catalog_matches_dispatch.1, claim_c4_catalog_matches_dispatch.2.2.1⟩,
   by decide, by decide,
   claim_c4_catalog_matches_dispatch.2.2.2.2.1 "o" "r" echoBugXOctokit "bogus" {} (by decide),
   claim_c4_catalog_matches_dispatch.2.2.2.2.2 aliceBobHttp "bogus" {} (by decide)⟩

/-- C10: list_crm_opportunities and get_crm_accounts forward the
caller-supplied limit (default 10 when absent) unchanged to the upstream
request as page_size — in particular a limit of 500 is forwarded as
page_size=500, the schema's declared maximum of 100 notwithstanding — while
list_github_issues clamps per_page to min(limit, 100), so 500 becomes 100. -/
theorem claim_c10_limit_forwarding (http : MergeHttp) (l : Nat)
    (octokit : GithubUpstream) (owner repo : String) :
    (mergeDispatch http "list_crm_opportunities" { limit := some l }).2 =
      ["/crm/v1/opportunities?page_size=" ++ toString l] ∧
    (mergeDispatch http "get_crm_accounts" { limit := some l }).2 =
      ["/crm/v1/accounts?page_size=" ++ toString l] ∧
    (mergeDispatch http "list_crm_opportunities" {}).2 =
      ["/crm/v1/opportunities?page_size=10"] ∧
    (mergeDispatch http "list_crm_opportunities" { limit := some 500 }).2 =
      ["/crm/v1/opportunities?page_size=500"] ∧
    (githubDispatch owner repo octokit "list_github_issues" { limit := some l }).2 =
      [GithubCall.listIssues { owner := owner, repo := repo, state := "open", per_page := min l 100 }] ∧
    (githubDispatch owner repo octokit "list_github_issues" { limit := some 500 }).2 =
      [GithubCall.listIssues { owner := owner, repo := repo, state := "open", per_page := 100 }] := by
  refine ⟨?_, ?_, ?_, ?_, ?_, ?_⟩ <;>
    simp [mergeDispatch, mergeHandle, githubDispatch, githubHandle,
      MergeAPIClient.opportunitiesEndpoint, MergeAPIClient.accountsEndpoint, jsTruthyStr] <;>
    decide

/-- C3: for every invocation whose upstream HTTP call returns a status outside
the 2xx range, the resulting `InvocationResult` has `isError = true` and its
message text includes the status code.  For the merge server this follows
from `makeRequest` embedding the status in the thrown message; for the github
server the upstream client is the external octokit library, modelled (from
the spec) as failing with a message that carries the status. -/
theorem claim_c3_upstream_status_surfaced (status : Nat) (bodyText : String)
    (hstatus : MergeAPIClient.responseOk status = false)
    (name : String) (hname : name ∈ mergeCatalogNames) (args : MergeArgs)
    (jc : CreateContactResult) (jp : ContactsResponse) (jk : Contact)
    (jo : CreateOpportunityResult) (jl : OpportunitiesResponse) (ja : AccountsResponse)
    (gname : String) (hgname : gname ∈ githubCatalogNames) (gmsg : String)
    (hgmsg : jsIncludes gmsg (toString status) = true)
    (owner repo : String) (gargs : GithubArgs) :
    ((mergeDispatch (mergeBadHttp status bodyText jc jp jk jo jl ja) name args).1.isError = true ∧
     jsIncludes (firstText (mergeDispatch (mergeBadHttp status bodyText jc jp jk jo jl ja) name args).1)
       (toString status) = true) ∧
    ((githubDispatch owner repo (githubFailingUpstream gmsg) gname gargs).1.isError = true ∧
     jsIncludes (firstText (githubDispatch owner repo (githubFailingUpstream gmsg) gname gargs).1)
       (toString status) = true) := by
  have hmergeErr : (mergeHandle (mergeBadHttp status bodyText jc jp jk jo jl ja) name args).1 =
      .error (MergeAPIClient.apiErrorMessage status bodyText) := by
    simp [mergeCatalogNames, mergeToolCatalog] at hname
    rcases hname with h | h | h | h | h | h <;> subst h <;>
      simp [mergeHandle, mergeBadHttp, MergeAPIClient.makeRequest, hstatus,
        createContactResult, searchContactsResult, getContactResult, createOpportunityResult,
        listOpportunitiesResult, getAccountsResult, MergeAPIClient.searchCRM, Except.map]
  have hgitErr : (githubHandle owner repo (githubFailingUpstream gmsg) gname gargs).1 =
      .error gmsg := by
    simp [githubCatalogNames, githubToolCatalog] at hgname
    rcases hgname with h | h | h <;> subst h <;>
      simp [githubHandle, githubFailingUpstream,
        createIssueResult, listIssuesResult, getIssueResult]
  refine ⟨⟨?_, ?_⟩, ⟨?_, ?_⟩⟩
  · simp [mergeDispatch, hmergeErr, wrapResult]
  · simpa [mergeDispatch, hmergeErr, wrapResult, firstText]
      using wrapError_includes_status status bodyText
  · simp [githubDispatch, hgitErr, wrapResult]
  · simpa [githubDispatch, hgitErr, wrapResult, firstText]
      using jsIncludes_prependStr "Error: " hgmsg

/-- C3 witness: a 404 with each server's first tool. -/
theorem claim_c3_upstream_status_surfaced_witness :
    MergeAPIClient.responseOk 404 = false ∧
    "create_crm_contact" ∈ mergeCatalogNames ∧
    "create_github_issue" ∈ githubCatalogNames ∧
    jsIncludes "HttpError 404: Not Found" (toString 404) = true ∧
    (((mergeDispatch (mergeBadHttp 404 "Not Found" {} {} sampleContact {} {} {}) "create_crm_contact" {}).1.isError = true ∧
      jsIncludes (firstText (mergeDispatch (mergeBadHttp 404 "Not Found" {} {} sampleContact {} {} {}) "create_crm_contact" {}).1) (toString 404) = true) ∧
     ((githubDispatch "o" "r" (githubFailingUpstream "HttpError 404: Not Found") "create_github_issue" {}).1.isError = true ∧
      jsIncludes (firstText (githubDispatch "o" "r" (githubFailingUpstream "HttpError 404: Not Found") "create_github_issue" {}).1) (toString 404) = true)) :=
  ⟨by decide, by decide, by decide, by decide,
   claim_c3_upstream_status_surfaced 404 "Not Found" (by decide) "create_crm_contact" (by decide)
     {} {} {} sampleContact {} {} {} "create_github_issue" (by decide)
     "HttpError 404: Not Found" (by decide) "o" "r" {}⟩

set_option maxRecDepth 8000 in
/-- C5 counterexample: eleven contacts that all match the query "alice",
invoked with the default limit.  All eleven satisfy the filter predicate, yet
the dispatched result lists only ten and omits the matching contact with id
"missing11" — so the result does not list exactly the matching contacts. -/
theorem claim_c5_search_filter_counterexample :
    ((elevenAlicesPage.results.getD []).filter
        (MergeAPIClient.contactMatches (jsToLowerCase "alice"))).map (fun c => c.id) =
      ["p1", "p2", "p3", "p4", "p5", "p6", "p7", "p8", "p9", "p10", "missing11"] ∧
    jsIncludes (firstText (mergeDispatch elevenAlicesHttp "search_crm_contacts" { query := some "alice" }).1)
      "Found 10 contact(s)" = true ∧
    jsIncludes (firstText (mergeDispatch elevenAlicesHttp "search_crm_contacts" { query := some "alice" }).1)
      "missing11" = false :=
  ⟨by decide, by decide, by decide⟩

/-- For a truthy query, `searchCRMFilter` replaces the results by the
filtered list. -/
theorem searchCRMFilter_some (q : String) (hq : jsTruthyStr (some q) = true)
    (resp : ContactsResponse) :
    MergeAPIClient.searchCRMFilter (some q) resp =
      { resp with results := some ((resp.results.getD []).filter
          (MergeAPIClient.contactMatches (jsToLowerCase q))) } := by
  unfold MergeAPIClient.searchCRMFilter
  rw [hq]
  simp

/-- The search branch when the truncated result list is empty. -/
theorem searchContactsResult_empty (result : ContactsResponse) (q : String) (limit : Nat)
    (hq : jsTruthyStr (some q) = true)
    (he : ((result.results.getD []).take limit).isEmpty = true) :
    searchContactsResult (.ok result) (some q) limit =
      .ok { content := [{ type := "text", text := "No contacts found" ++ (" for \"" ++ q ++ "\"") }], isError := false } := by
  unfold searchContactsResult
  simp only [he]
  simp [hq]

/-- The search branch when the truncated result list is non-empty. -/
theorem searchContactsResult_found (result : ContactsResponse) (q : String) (limit : Nat)
    (_hq : jsTruthyStr (some q) = true)
    (he : ((result.results.getD []).take limit).isEmpty = false) :
    searchContactsResult (.ok result) (some q) limit =
      .ok { content := [{ type := "text", text := "Found " ++ toString ((result.results.getD []).take limit).length ++ " contact(s):\n\n" ++ String.intercalate "\n" (((result.results.getD []).take limit).map contactLine) }], isError := false } := by
  unfold searchContactsResult
  simp only [he]
  simp

/-- C5 (amended): for search_crm_contacts invoked with a non-empty query
against a 2xx upstream page of contacts, the dispatched result is a success
that lists exactly the matching contacts — those whose lowercased first name,
last name, or one of whose lowercased email addresses contains the lowercased
query — truncated to the first `limit` of them (default 10); in the spec's
scenario (query "alice" over Alice and Bob) only the Alice record is
listed. -/
theorem claim_c5_search_filter (q : String) (hq : q ≠ "") (http : MergeHttp)
    (args : MergeArgs) (resp : ContactsResponse) (status : Nat) (bodyText : String)
    (hargs : args.query = some q)
    (hresp : http.contactsResp = .ok { status := status, bodyText := bodyText, json := resp })
    (hok : MergeAPIClient.responseOk status = true) :
    (let listed := ((resp.results.getD []).filter
        (MergeAPIClient.contactMatches (jsToLowerCase q))).take (args.limit.getD 10)
     (mergeDispatch http "search_crm_contacts" args).1 =
      if listed.isEmpty then
        { content := [{ type := "text", text := "No contacts found" ++ (" for \"" ++ q ++ "\"") }], isError := false }
      else
        { content := [{ type := "text", text := "Found " ++ toString listed.length ++ " contact(s):\n\n" ++ String.intercalate "\n" (listed.map contactLine) }], isError := false }) ∧
    (mergeDispatch aliceBobHttp "search_crm_contacts" { query := some "alice" }).1 =
      { content := [{ type := "text", text := "Found 1 contact(s):\n\nAlice Anderson (alice@example.com) - ID: c1" }], isError := false } := by
  have hb : jsTruthyStr (some q) = true := by
    simp [jsTruthyStr]
    exact hq
  have hsearch : MergeAPIClient.searchCRM http.contactsResp (some q) =
      .ok (MergeAPIClient.searchCRMFilter (some q) resp) := by
    simp [MergeAPIClient.searchCRM, hresp, MergeAPIClient.makeRequest, hok, Except.map]
  have hfil := searchCRMFilter_some q hb resp
  constructor
  · cases he : (((resp.results.getD []).filter
        (MergeAPIClient.contactMatches (jsToLowerCase q))).take (args.limit.getD 10)).isEmpty with
    | true =>
      have he2 : (((MergeAPIClient.searchCRMFilter (some q) resp).results.getD []).take
          (args.limit.getD 10)).isEmpty = true := by
        rw [hfil]
        simpa using he
      have hres := searchContactsResult_empty _ q _ hb he2
      simp [mergeDispatch, mergeHandle, hargs, hsearch, hres, wrapResult, he]
    | false =>
      have he2 : (((MergeAPIClient.searchCRMFilter (some q) resp).results.getD []).take
          (args.limit.getD 10)).isEmpty = false := by
        rw [hfil]
        simpa using he
      have hres := searchContactsResult_found _ q _ hb he2
      rw [hfil] at hres
      simp [mergeDispatch, mergeHandle, hargs, hsearch, hfil, hres, wrapResult, he]
  · decide

/-- C5 witness: the amended statement at the Alice/Bob scenario inputs. -/
theorem claim_c5_search_filter_witness :
    "alice" ≠ "" ∧
    ({ query := some "alice" } : MergeArgs).query = some "alice" ∧
    aliceBobHttp.contactsResp = .ok { status := 200, bodyText := "", json := aliceBobPage } ∧
    MergeAPIClient.responseOk 200 = true ∧
    ((let listed := ((aliceBobPage.results.getD []).filter
        (MergeAPIClient.contactMatches (jsToLowerCase "alice"))).take
          (({ query := some "alice" } : MergeArgs).limit.getD 10)
      (mergeDispatch aliceBobHttp "search_crm_contacts" { query := some "alice" }).1 =
      if listed.isEmpty then
        { content := [{ type := "text", text := "No contacts found" ++ (" for \"" ++ "alice" ++ "\"") }], isError := false }
      else
        { content := [{ type := "text", text := "Found " ++ toString listed.length ++ " contact(s):\n\n" ++ String.intercalate "\n" (listed.map contactLine) }], isError := false }) ∧
     (mergeDispatch aliceBobHttp "search_crm_contacts" { query := some "alice" }).1 =
      { content := [{ type := "text", text := "Found 1 contact(s):\n\nAlice Anderson (alice@example.com) - ID: c1" }], isError := false }) :=
  ⟨by decide, rfl, rfl, by decide,
   claim_c5_search_filter "alice" (by decide) aliceBobHttp { query := some "alice" }
     aliceBobPage 200 "" rfl rfl (by decide)⟩

/-- C6: invoking create_github_issue with only a title, against an upstream
that answers with an issue, yields a success result (`isError` false) whose
text contains the issue number prefixed with '#', the issue title, and the
issue URL. -/
theorem claim_c6_create_issue (owner repo title : String) (octokit : GithubUpstream) (issue : Issue)
    (h : octokit.createIssue { owner := owner, repo := repo, title := some title, body := "", labels := none, assignees := none } = .ok issue) :
    (githubDispatch owner repo octokit "create_github_issue" { title := some title }).1.isError = false ∧
    jsIncludes (firstText (githubDispatch owner repo octokit "create_github_issue" { title := some title }).1) ("#" ++ toString issue.number) = true ∧
    jsIncludes (firstText (githubDispatch owner repo octokit "create_github_issue" { title := some title }).1) issue.title = true ∧
    jsIncludes (firstText (githubDispatch owner repo octokit "create_github_issue" { title := some title }).1) issue.html_url = true := by
  have hd : (githubDispatch owner repo octokit "create_github_issue" { title := some title }).1 =
      { content := [{ type := "text", text := createIssueText issue }] } := by
    simp [githubDispatch, githubHandle, h, createIssueResult, wrapResult]
  rw [hd]
  have hsplit : ("Successfully created GitHub issue #" : String) =
      "Successfully created GitHub issue " ++ "#" := by decide
  refine ⟨rfl, ?_, ?_, ?_⟩
  · show jsIncludes (createIssueText issue) ("#" ++ toString issue.number) = true
    unfold createIssueText
    rw [hsplit]
    apply jsIncludes_intro "Successfully created GitHub issue "
      (": \"" ++ issue.title ++ "\"\nURL: " ++ issue.html_url ++ "\nState: " ++ issue.state)
    simp [String.data_append, List.append_assoc]
  · show jsIncludes (createIssueText issue) issue.title = true
    unfold createIssueText
    apply jsIncludes_intro ("Successfully created GitHub issue #" ++ toString issue.number ++ ": \"")
      ("\"\nURL: " ++ issue.html_url ++ "\nState: " ++ issue.state)
    simp [String.data_append, List.append_assoc]
  · show jsIncludes (createIssueText issue) issue.html_url = true
    unfold createIssueText
    apply jsIncludes_intro
      ("Successfully created GitHub issue #" ++ toString issue.number ++ ": \"" ++ issue.title ++ "\"\nURL: ")
      ("\nState: " ++ issue.state)
    simp [String.data_append, List.append_assoc]

/-- C6 witness: the spec scenario (title "Bug X", echoed issue number 42). -/
theorem claim_c6_create_issue_witness :
    (echoBugXOctokit.createIssue { owner := "o", repo := "r", title := some "Bug X", body := "", labels := none, assignees := none } = .ok bugXIssue) ∧
    ((githubDispatch "o" "r" echoBugXOctokit "create_github_issue" { title := some "Bug X" }).1.isError = false ∧
     jsIncludes (firstText (githubDispatch "o" "r" echoBugXOctokit "create_github_issue" { title := some "Bug X" }).1) ("#" ++ toString bugXIssue.number) = true ∧
     jsIncludes (firstText (githubDispatch "o" "r" echoBugXOctokit "create_github_issue" { title := some "Bug X" }).1) bugXIssue.title = true ∧
     jsIncludes (firstText (githubDispatch "o" "r" echoBugXOctokit "create_github_issue" { title := some "Bug X" }).1) bugXIssue.html_url = true) :=
  ⟨rfl, claim_c6_create_issue "o" "r" "Bug X" echoBugXOctokit bugXIssue rfl⟩

/-- C7: when the upstream opportunities call succeeds (2xx) with zero results,
list_crm_opportunities returns a success result whose text states that no
opportunities were found. -/
theorem claim_c7_zero_opportunities (http : MergeHttp) (args : MergeArgs)
    (status : Nat) (bodyText : String) (resp : OpportunitiesResponse)
    (hok : MergeAPIClient.responseOk status = true)
    (hresp : http.opportunitiesResp (args.limit.getD 10) = .ok { status := status, bodyText := bodyText, json := resp })
    (hzero : resp.results.getD [] = []) :
    (mergeDispatch http "list_crm_opportunities" args).1 =
      { content := [{ type := "text", text := "No opportunities found in your CRM" }], isError := false } := by
  simp [mergeDispatch, mergeHandle, hresp, MergeAPIClient.makeRequest, hok,
    listOpportunitiesResult, hzero, wrapResult]

/-- C7 witness: an empty 2xx opportunities page. -/
theorem claim_c7_zero_opportunities_witness :
    MergeAPIClient.responseOk 200 = true ∧
    emptyOppsHttp.opportunitiesResp ((({} : MergeArgs)).limit.getD 10) =
      .ok { status := 200, bodyText := "", json := { results := some [] } } ∧
    (({ results := some [] } : OpportunitiesResponse).results.getD [] = []) ∧
    (mergeDispatch emptyOppsHttp "list_crm_opportunities" {}).1 =
      { content := [{ type := "text", text := "No opportunities found in your CRM" }], isError := false } :=
  ⟨by decide, rfl, rfl,
   claim_c7_zero_opportunities emptyOppsHttp {} 200 "" { results := some [] } (by decide) rfl rfl⟩

/-- C8: a missing required credential makes the startup checks exit the
process with status 1 (nonzero); the outcome `exited` is reached before any
server object exists, so neither the stdio invocation channel nor the health
HTTP endpoint is ever bound. -/
theorem claim_c8_missing_credentials (genv : GithubEnv) (menv : MergeEnv)
    (hg : genv.GITHUB_TOKEN = none ∨ genv.GITHUB_REPO = none)
    (hm : menv.MERGE_API_KEY = none ∨ menv.MERGE_ACCOUNT_TOKEN = none) :
    githubStartupChecks genv = .exited 1 ∧ mergeStartupChecks menv = .exited 1 ∧ (1 : Nat) ≠ 0 := by
  refine ⟨?_, ?_, by decide⟩
  · rcases hg with h | h
    · simp [githubStartupChecks, h, jsTruthyStr]
    · cases htok : jsTruthyStr genv.GITHUB_TOKEN <;>
        simp [githubStartupChecks, htok, h, jsTruthyStr]
  · rcases hm with h | h
    · simp [mergeStartupChecks, h, jsTruthyStr]
    · cases hkey : jsTruthyStr menv.MERGE_API_KEY <;>
        simp [mergeStartupChecks, hkey, h, jsTruthyStr]

/-- C8 witness: github env missing its token, merge env missing its account
token. -/
theorem claim_c8_missing_credentials_witness :
    (({ GITHUB_TOKEN := none, GITHUB_REPO := some "o/r" } : GithubEnv).GITHUB_TOKEN = none ∨
      ({ GITHUB_TOKEN := none, GITHUB_REPO := some "o/r" } : GithubEnv).GITHUB_REPO = none) ∧
    (({ MERGE_API_KEY := some "k", MERGE_ACCOUNT_TOKEN := none } : MergeEnv).MERGE_API_KEY = none ∨
      ({ MERGE_API_KEY := some "k", MERGE_ACCOUNT_TOKEN := none } : MergeEnv).MERGE_ACCOUNT_TOKEN = none) ∧
    (githubStartupChecks { GITHUB_TOKEN := none, GITHUB_REPO := some "o/r" } = .exited 1 ∧
     mergeStartupChecks { MERGE_API_KEY := some "k", MERGE_ACCOUNT_TOKEN := none } = .exited 1 ∧
     (1 : Nat) ≠ 0) :=
  ⟨Or.inl rfl, Or.inr rfl,
   claim_c8_missing_credentials { GITHUB_TOKEN := none, GITHUB_REPO := some "o/r" }
     { MERGE_API_KEY := some "k", MERGE_ACCOUNT_TOKEN := none } (Or.inl rfl) (Or.inr rfl)⟩
